import Mathlib

/-!
Verification of the autonomous-car perception/decision pipeline
(`Raspberry Files/core`): the decision engine (`navigation_ai.py`),
the vision temporal stabilizers and frame pipeline (`vision_system.py`),
the motor controller safety lockout (`motor_controller.py`), and the
ultrasonic ranging sentinel (`sensor_manager.py`).

Machine integers in the source are plain Python ints (speeds, pixel
offsets) and floats used only for ratios/distances; we model the former
with `Nat`/`Int` and the latter with `ℚ`.
-/

/-! ## Shared helpers: Python dict counting idiom

Both `navigation_ai.apply_temporal_filtering` and
`vision_system._update_direction_with_confidence` build a dict of counts
by iterating over a list and then take `max(counts, key=counts.get)`.
Python dicts iterate in insertion order (first occurrence in the list),
and `max` keeps the earliest maximal element (strict `>` comparison while
folding).  `dedupFirst` reproduces the dict key order and `mostCommon`
reproduces the `max(...)` call.
-/

/-- Keys of a Python dict built by counting over `l`: each distinct value
in order of first occurrence. -/
def dedupFirst (l : List String) : List String :=
  l.foldl (fun acc x => if x ∈ acc then acc else acc ++ [x]) []

/-- Python `max(counts, key=counts.get)`: fold over the keys keeping the
current best, replacing it only on a strictly greater count. -/
def mostCommon (l : List String) : String :=
  match dedupFirst l with
  | [] => ""
  | k :: ks => ks.foldl (fun best x => if l.count best < l.count x then x else best) k

/-- Python `deque(maxlen=n).append` / `list.append` followed by a single
`pop(0)` when the length exceeds `n`. -/
def pushTrunc {α : Type} (hist : List α) (x : α) (n : ℕ) : List α :=
  let l := hist ++ [x]
  if n < l.length then l.tail else l

namespace NavigationAI

/-! ## navigation_ai.py — the Decision Engine

`NavigationAI.__init__` sets the thresholds used by
`make_navigation_decision`; they are fixed constants of the class. -/

def obstacle_stop_distance : ℚ := 20

def safe_distance : ℚ := 30

def default_speed : ℕ := 75

def reduced_speed : ℕ := 50

/-- The deque `decision_history = deque(maxlen=5)` capacity. -/
def decision_history_maxlen : ℕ := 5

/-- Environment snapshot built by `analyze_environment` (a Python dict
with these exact keys). -/
structure Environment where
  lane_direction : String
  traffic_light : String
  traffic_light_confidence : ℚ
  speed_limit_detected : Bool
  stop_sign_detected : Bool
  obstacle_distance : ℚ
  obstacle_detected : Bool
deriving DecidableEq

/-- Decision dict: `make_navigation_decision` produces `action`, `speed`,
`reason`; `apply_temporal_filtering` later adds the `filtered` key, which
we model as an `Option Bool` that starts out `none`. -/
structure Decision where
  action : String
  speed : ℕ
  reason : String
  filtered : Option Bool := none
deriving DecidableEq

/-- Direct transcription of `NavigationAI.make_navigation_decision`:
priority chain obstacle → red light → stop sign → lane direction →
default cautious/stop behaviour. -/
def make_navigation_decision (e : Environment) : Decision :=
  if e.obstacle_detected = true ∧ e.obstacle_distance < obstacle_stop_distance then
    { action := "EMERGENCY_STOP", speed := 0,
      reason := "Obstacle at " ++ toString e.obstacle_distance ++ "cm" }
  else if e.traffic_light = "RED" ∧ e.traffic_light_confidence > 7/10 then
    { action := "TRAFFIC_STOP", speed := 0, reason := "Red traffic light detected" }
  else if e.stop_sign_detected = true then
    { action := "STOP_SIGN_STOP", speed := 0, reason := "Stop sign detected" }
  else if e.lane_direction = "LEFT" then
    { action := "TURN_LEFT",
      speed := if e.speed_limit_detected = true then reduced_speed else default_speed,
      reason := "Following lane direction" }
  else if e.lane_direction = "RIGHT" then
    { action := "TURN_RIGHT",
      speed := if e.speed_limit_detected = true then reduced_speed else default_speed,
      reason := "Following lane direction" }
  else if e.lane_direction = "STRAIGHT" then
    { action := "MOVE_FORWARD",
      speed := if e.obstacle_distance < safe_distance then reduced_speed
               else if e.speed_limit_detected = true then reduced_speed else default_speed,
      reason := "Following lane - straight path" }
  else if e.obstacle_distance > safe_distance then
    { action := "MOVE_FORWARD", speed := reduced_speed, reason := "Cautious forward movement" }
  else
    { action := "STOP", speed := 0, reason := "Uncertain environment - safety stop" }

/-- Direct transcription of `NavigationAI.apply_temporal_filtering`: the
decision history deque is passed and returned explicitly.  The 60%
consensus test is `most_common_count >= len(history) * 0.6`. -/
def apply_temporal_filtering (d : Decision) (hist : List String) : Decision × List String :=
  let hist := pushTrunc hist d.action decision_history_maxlen
  let most_common_action := mostCommon hist
  let most_common_count := hist.count most_common_action
  if (most_common_count : ℚ) ≥ (hist.length : ℚ) * (3/5) then
    ({ d with action := most_common_action, filtered := some true }, hist)
  else
    ({ d with filtered := some false }, hist)

end NavigationAI

namespace NavigationAI

/-! ### Claims about the Decision Engine -/

/-- C1: whenever an obstacle is detected closer than the stop distance
(20 cm) and simultaneously a RED traffic light is seen with confidence
above 0.7, `make_navigation_decision` returns `EMERGENCY_STOP` at speed
0 (never `TRAFFIC_STOP`): the obstacle rule has strictly higher priority
than the red-light rule. -/
theorem obstacle_priority_over_red_light (e : Environment)
    (hob : e.obstacle_detected = true) (hd : e.obstacle_distance < 20)
    (hred : e.traffic_light = "RED") (hc : 7/10 < e.traffic_light_confidence) :
    (make_navigation_decision e).action = "EMERGENCY_STOP" ∧
      (make_navigation_decision e).speed = 0 := by
  have h1 : e.obstacle_detected = true ∧ e.obstacle_distance < obstacle_stop_distance :=
    ⟨hob, by simpa [obstacle_stop_distance] using hd⟩
  unfold make_navigation_decision
  rw [if_pos h1]
  exact ⟨rfl, rfl⟩

/-- Concrete instantiation of `obstacle_priority_over_red_light`:
obstacle at 10 cm together with a RED light at confidence 0.9. -/
def env_obstacle_and_red : Environment :=
  { lane_direction := "STRAIGHT", traffic_light := "RED",
    traffic_light_confidence := 9/10, speed_limit_detected := false,
    stop_sign_detected := false, obstacle_distance := 10, obstacle_detected := true }

theorem obstacle_priority_over_red_light_witness :
    (make_navigation_decision env_obstacle_and_red).action = "EMERGENCY_STOP" ∧
      (make_navigation_decision env_obstacle_and_red).speed = 0 :=
  obstacle_priority_over_red_light env_obstacle_and_red rfl
    (by norm_num [env_obstacle_and_red]) rfl (by norm_num [env_obstacle_and_red])

/-- Environment refuting C2 as stated: lane direction `SHARP_LEFT`
(outside LEFT/RIGHT/STRAIGHT and distinct from UNKNOWN) with a clear
path. -/
def env_sharp_left_clear : Environment :=
  { lane_direction := "SHARP_LEFT", traffic_light := "UNKNOWN",
    traffic_light_confidence := 0, speed_limit_detected := false,
    stop_sign_detected := false, obstacle_distance := 100, obstacle_detected := false }

/-- C2 counterexample: with lane direction `SHARP_LEFT` (not UNKNOWN)
and a clear path the engine returns a cautious `MOVE_FORWARD` at speed
50, not `STOP` with speed 0 as the claim requires. -/
theorem default_branch_counterexample :
    env_sharp_left_clear.lane_direction ≠ "LEFT" ∧
    env_sharp_left_clear.lane_direction ≠ "RIGHT" ∧
    env_sharp_left_clear.lane_direction ≠ "STRAIGHT" ∧
    env_sharp_left_clear.lane_direction ≠ "UNKNOWN" ∧
    (make_navigation_decision env_sharp_left_clear).action = "MOVE_FORWARD" ∧
    (make_navigation_decision env_sharp_left_clear).action ≠ "STOP" ∧
    (make_navigation_decision env_sharp_left_clear).speed = 50 := by
  decide

/-- C2 (amended): for every lane direction outside
{LEFT, RIGHT, STRAIGHT} — not only UNKNOWN — and with no higher-priority
rule firing, the engine returns the cautious `MOVE_FORWARD` at reduced
speed 50 exactly when the obstacle distance exceeds the safe distance
(30), and `STOP` at speed 0 otherwise. -/
theorem default_branch_amended (e : Environment)
    (hl : e.lane_direction ≠ "LEFT") (hr : e.lane_direction ≠ "RIGHT")
    (hs : e.lane_direction ≠ "STRAIGHT")
    (hob : ¬(e.obstacle_detected = true ∧ e.obstacle_distance < obstacle_stop_distance))
    (hred : ¬(e.traffic_light = "RED" ∧ e.traffic_light_confidence > 7/10))
    (hsign : e.stop_sign_detected = false) :
    (safe_distance < e.obstacle_distance →
      (make_navigation_decision e).action = "MOVE_FORWARD" ∧
        (make_navigation_decision e).speed = 50) ∧
    (¬safe_distance < e.obstacle_distance →
      (make_navigation_decision e).action = "STOP" ∧
        (make_navigation_decision e).speed = 0) := by
  unfold make_navigation_decision
  rw [if_neg hob, if_neg hred, if_neg (by simp [hsign]), if_neg hl, if_neg hr, if_neg hs]
  constructor
  · intro hdist
    rw [if_pos (by exact hdist)]
    exact ⟨rfl, rfl⟩
  · intro hdist
    rw [if_neg (by exact hdist)]
    exact ⟨rfl, rfl⟩

theorem default_branch_amended_witness :
    (make_navigation_decision env_sharp_left_clear).action = "MOVE_FORWARD" ∧
      (make_navigation_decision env_sharp_left_clear).speed = 50 :=
  (default_branch_amended env_sharp_left_clear (by decide) (by decide) (by decide)
    (by decide) (by decide) rfl).1 (by decide)

/-- C7: when the range reading equals the ranging driver's timeout
sentinel 400 (`sensor_manager.get_distance` returns 400 on echo
timeout), `make_navigation_decision` can never return `EMERGENCY_STOP`,
whatever the other environment fields are: the emergency branch needs
`obstacle_distance < 20`. -/
theorem sentinel_never_emergency_stop (e : Environment)
    (h : e.obstacle_distance = 400) :
    (make_navigation_decision e).action ≠ "EMERGENCY_STOP" := by
  unfold make_navigation_decision
  split_ifs with h1 h2 h3 h4 h5 h6 h7
  · exact absurd h1.2 (by rw [h]; unfold obstacle_stop_distance; norm_num)
  all_goals decide

/-- Environment with the sentinel distance and, adversarially, the
obstacle flag raised. -/
def env_sentinel : Environment :=
  { lane_direction := "UNKNOWN", traffic_light := "UNKNOWN",
    traffic_light_confidence := 0, speed_limit_detected := false,
    stop_sign_detected := false, obstacle_distance := 400, obstacle_detected := true }

theorem sentinel_never_emergency_stop_witness :
    (make_navigation_decision env_sentinel).action ≠ "EMERGENCY_STOP" :=
  sentinel_never_emergency_stop env_sentinel rfl

/-- C10: `apply_temporal_filtering` only ever touches the `action` and
`filtered` fields of the decision dict; `speed` and `reason` come back
unchanged — in particular a majority-vote replacement of the action by a
stop-type action retains the raw decision's possibly nonzero speed. -/
theorem temporal_filtering_preserves_speed_reason (d : Decision) (hist : List String) :
    ((apply_temporal_filtering d hist).1).speed = d.speed ∧
      ((apply_temporal_filtering d hist).1).reason = d.reason := by
  unfold apply_temporal_filtering
  simp only []
  split
  · exact ⟨rfl, rfl⟩
  · exact ⟨rfl, rfl⟩

end NavigationAI

/-! ## Lemmas about the counting idiom -/

/-- Everything in the scanned list ends up among the dict keys. -/
theorem mem_foldl_dedup (l : List String) (acc : List String) (x : String)
    (h : x ∈ acc ∨ x ∈ l) :
    x ∈ l.foldl (fun acc y => if y ∈ acc then acc else acc ++ [y]) acc := by
  induction l generalizing acc with
  | nil => simpa using h.resolve_right (by simp)
  | cons y ys ih =>
    rw [List.foldl_cons]
    apply ih
    rcases h with hacc | hyl
    · left
      split
      · exact hacc
      · exact List.mem_append_left _ hacc
    · rcases List.mem_cons.mp hyl with hxy | hxys
      · subst hxy
        left
        split
        · assumption
        · exact List.mem_append_right _ (List.mem_singleton.mpr rfl)
      · right; exact hxys

theorem mem_dedupFirst {l : List String} {x : String} (h : x ∈ l) : x ∈ dedupFirst l :=
  mem_foldl_dedup l [] x (Or.inr h)

/-- The fold reproducing Python `max(counts, key=counts.get)` returns an
element whose count dominates the seed and every folded key. -/
theorem foldl_argmax_count (l : List String) (ks : List String) (b : String) :
    l.count b ≤ l.count (ks.foldl (fun best x => if l.count best < l.count x then x else best) b) ∧
      ∀ k ∈ ks,
        l.count k ≤ l.count (ks.foldl (fun best x => if l.count best < l.count x then x else best) b) := by
  induction ks generalizing b with
  | nil => simp
  | cons k ks ih =>
    have hstep : l.count b ≤ l.count (if l.count b < l.count k then k else b) ∧
        l.count k ≤ l.count (if l.count b < l.count k then k else b) := by
      constructor <;> (split <;> omega)
    rw [List.foldl_cons]
    obtain ⟨h1, h2⟩ := ih (if l.count b < l.count k then k else b)
    refine ⟨le_trans hstep.1 h1, ?_⟩
    intro k2 hk2
    rcases List.mem_cons.mp hk2 with hk2 | hk2
    · subst hk2; exact le_trans hstep.2 h1
    · exact h2 k2 hk2

/-- `mostCommon` really attains the maximal count among the elements of
the list. -/
theorem count_le_mostCommon (l : List String) (x : String) (hx : x ∈ l) :
    l.count x ≤ l.count (mostCommon l) := by
  have hmem : x ∈ dedupFirst l := mem_dedupFirst hx
  rcases hD : dedupFirst l with _ | ⟨k, ks⟩
  · rw [hD] at hmem; simp at hmem
  · rw [hD] at hmem
    unfold mostCommon
    rw [hD]
    rcases List.mem_cons.mp hmem with hxk | hxks
    · subst hxk; exact (foldl_argmax_count l ks x).1
    · exact (foldl_argmax_count l ks k).2 x hxks

namespace VisionSystem

/-! ## vision_system.py — temporal stabilizers and the frame pipeline

`NavigationVisionSystem.__init__` fixes `history_length = 5` and
`skip_frames = 2`.  The cv2 image operations (masking, contour finding,
moments) are external collaborators; the pipeline logic downstream of
them — direction classification from a centroid, history buffers,
majority votes, the navigation-data record — is modelled exactly. -/

/-- Offset ratio `abs(offset) / (image_center_x if image_center_x > 0 else 1)`
from `get_navigation_direction`. -/
def offsetRatio (center_x image_center_x : ℤ) : ℚ :=
  ((|center_x - image_center_x| : ℤ) : ℚ) /
    (if 0 < image_center_x then (image_center_x : ℚ) else 1)

/-- Direct transcription of
`NavigationVisionSystem.get_navigation_direction` (the Python default
`threshold=40` is passed explicitly by the caller model). -/
def get_navigation_direction (center_x image_center_x threshold : ℤ) : String :=
  if |center_x - image_center_x| < threshold then "STRAIGHT"
  else if center_x - image_center_x < -threshold then
    if offsetRatio center_x image_center_x > 3/10 then "SHARP_LEFT" else "LEFT"
  else
    if offsetRatio center_x image_center_x > 3/10 then "SHARP_RIGHT" else "RIGHT"

/-- Direct transcription of
`NavigationVisionSystem._update_direction_with_confidence`, with the
history buffer, current stable direction and confidence passed and
returned explicitly: confidence is `max_count / len(history)` and the
stable direction changes only when it reaches 0.6. -/
def update_direction_with_confidence (hist : List String)
    (current_direction : String) (lane_confidence : ℚ) : String × ℚ :=
  if hist = [] then (current_direction, lane_confidence)
  else
    ((if (hist.count (mostCommon hist) : ℚ) / (hist.length : ℚ) ≥ 3/5
        then mostCommon hist else current_direction),
     (hist.count (mostCommon hist) : ℚ) / (hist.length : ℚ))

/-- Navigation data dict sent to the Android app. -/
structure NavData where
  lane_direction : String
  lane_confidence : ℚ
  obstacle_detected : Bool
  obstacle_distance_pixels : ℕ
  path_clear : Bool
  fps : ℚ
  camera_active : Bool
deriving DecidableEq

/-- Python `round(q, n)` (modelled with round-half-up; the source only
uses it for display fields of the navigation dict). -/
def roundTo (q : ℚ) (ndigits : ℕ) : ℚ := (round (q * 10 ^ ndigits) : ℤ) / 10 ^ ndigits

/-- Mutable state of `NavigationVisionSystem` relevant to the
navigation pipeline. -/
structure VisionState where
  frame_skip_counter : ℕ
  skip_frames : ℕ
  history_length : ℕ
  lane_direction_history : List String
  current_direction : String
  lane_confidence : ℚ
  obstacle_history : List Bool
  obstacle_detected : Bool
  obstacle_confidence : ℚ
  fps : ℚ
  frame_count : ℕ
  start_time : ℚ
  navigation_data : NavData
deriving DecidableEq

/-- `navigation_data` as initialized in `__init__`. -/
def initialNavData : NavData :=
  { lane_direction := "STRAIGHT", lane_confidence := 0, obstacle_detected := false,
    obstacle_distance_pixels := 0, path_clear := true, fps := 0, camera_active := true }

/-- State after `__init__` (`start_time = time.time()` is modelled as
time 0; all later times are relative to it). -/
def initialVisionState : VisionState :=
  { frame_skip_counter := 0, skip_frames := 2, history_length := 5,
    lane_direction_history := [], current_direction := "STRAIGHT", lane_confidence := 0,
    obstacle_history := [], obstacle_detected := false, obstacle_confidence := 0,
    fps := 0, frame_count := 0, start_time := 0, navigation_data := initialNavData }

/-- Direct transcription of
`NavigationVisionSystem._update_navigation_data`: FPS bookkeeping, the
obstacle history push with majority vote against the 0.4 threshold, and
the refresh of the navigation dict.  `now` stands for `time.time()`. -/
def update_navigation_data (s : VisionState) (path_clear : Bool)
    (obstacle_distance : ℕ) (now : ℚ) : VisionState :=
  let elapsed := now - s.start_time
  let fps := if 1 ≤ elapsed then (s.frame_count : ℚ) / elapsed else s.fps
  let frame_count := (if 1 ≤ elapsed then 0 else s.frame_count) + 1
  let start_time := if 1 ≤ elapsed then now else s.start_time
  let ohist := pushTrunc s.obstacle_history (!path_clear) s.history_length
  let oconf : ℚ := if ohist = [] then 0 else (ohist.count true : ℚ) / (ohist.length : ℚ)
  let odet : Bool := decide ((2 : ℚ)/5 < oconf)
  { s with
    fps := fps
    frame_count := frame_count
    start_time := start_time
    obstacle_history := ohist
    obstacle_confidence := oconf
    obstacle_detected := odet
    navigation_data :=
      { lane_direction := s.current_direction,
        lane_confidence := roundTo s.lane_confidence 2,
        obstacle_detected := odet,
        obstacle_distance_pixels := obstacle_distance,
        path_clear := path_clear && !odet,
        fps := roundTo fps 1,
        camera_active := true } }

/-- Per-frame outputs of the external cv2 collaborators inside
`process_navigation_frame`: the path centroid x (if
`find_navigation_path` found a path), the image center
`frame.shape[1] // 2`, the `_detect_path_obstacles` pixel distance, and
the wall-clock reading consumed by `_update_navigation_data`. -/
structure FrameAnalysis where
  path_center_x : Option ℤ
  img_center_x : ℤ
  obstacle_distance_px : ℕ
  now : ℚ
deriving DecidableEq

/-- Direct transcription of
`NavigationVisionSystem.process_navigation_frame` below the cv2 layer:
frame-skip gate, direction classification, lane-history push, stable
direction update, and navigation-data refresh.  Returns the new state
together with the returned `navigation_data`. -/
def process_navigation_frame (s : VisionState) (f : FrameAnalysis) : VisionState × NavData :=
  let s := { s with frame_skip_counter := s.frame_skip_counter + 1 }
  if s.frame_skip_counter % s.skip_frames ≠ 0 then (s, s.navigation_data)
  else
    let detected_direction :=
      match f.path_center_x with
      | none => "STRAIGHT"
      | some cx => get_navigation_direction cx f.img_center_x 40
    let obstacle_distance :=
      match f.path_center_x with
      | none => 0
      | some _ => f.obstacle_distance_px
    let path_clear := obstacle_distance == 0
    let hist := pushTrunc s.lane_direction_history detected_direction s.history_length
    let dirconf := update_direction_with_confidence hist s.current_direction s.lane_confidence
    let s := { s with
               lane_direction_history := hist
               current_direction := dirconf.1
               lane_confidence := dirconf.2 }
    let s := update_navigation_data s path_clear obstacle_distance f.now
    (s, s.navigation_data)

end VisionSystem

namespace VisionSystem

/-! ### Claims about the vision pipeline -/

/-- C3 counterexample: with the default threshold 40, a centroid at
`center_x = 280` against image center 320 has offset exactly
`-threshold`, yet `get_navigation_direction` returns `"RIGHT"` — the
left branch uses the strict test `offset < -threshold`, so the
`-threshold` boundary falls into the RIGHT family, not the LEFT family
the claim expects. -/
theorem boundary_offset_counterexample :
    (280 : ℤ) - 320 = -40 ∧ get_navigation_direction 280 320 40 = "RIGHT" := by
  constructor
  · norm_num
  · unfold get_navigation_direction offsetRatio
    norm_num

/-- C3 (amended): at an offset of exactly `±threshold` the result is
never STRAIGHT (the boundary is exclusive on the STRAIGHT side), but on
both sides it is a RIGHT-family direction: `+threshold` reaches the
right branch as the claim says, while `-threshold` fails the strict
`offset < -threshold` test and also lands in the right branch. -/
theorem boundary_offset_right_family (cx icx t : ℤ) (ht : 0 < t)
    (h : cx - icx = t ∨ cx - icx = -t) :
    get_navigation_direction cx icx t = "RIGHT" ∨
      get_navigation_direction cx icx t = "SHARP_RIGHT" := by
  unfold get_navigation_direction
  rcases h with he | he <;> rw [he]
  · rw [if_neg (by rw [abs_of_pos ht]; omega), if_neg (by omega)]
    split
    · exact Or.inr rfl
    · exact Or.inl rfl
  · rw [if_neg (by rw [abs_neg, abs_of_pos ht]; omega), if_neg (by omega)]
    split
    · exact Or.inr rfl
    · exact Or.inl rfl

theorem boundary_offset_right_family_witness :
    get_navigation_direction 360 320 40 = "RIGHT" ∨
      get_navigation_direction 360 320 40 = "SHARP_RIGHT" :=
  boundary_offset_right_family 360 320 40 (by norm_num) (Or.inl (by norm_num))

/-- C4 (amended): the stable obstacle flag computed by
`_update_navigation_data` is set exactly when the majority-vote
confidence of the obstacle history exceeds 0.4 — the threshold in the
code is `> 0.4`, not the 0.6 used for the other stabilized signals. -/
theorem obstacle_flag_iff_confidence_above_two_fifths (s : VisionState)
    (path_clear : Bool) (obstacle_distance : ℕ) (now : ℚ) :
    (update_navigation_data s path_clear obstacle_distance now).obstacle_detected
      = decide ((2 : ℚ)/5 <
          (update_navigation_data s path_clear obstacle_distance now).obstacle_confidence) :=
  rfl

/-- History state with four prior obstacle observations, three positive. -/
def vision_state_obstacle4 : VisionState :=
  { initialVisionState with obstacle_history := [true, true, true, false] }

/-- C4 counterexample: pushing one more clear observation yields
majority confidence exactly 3/5 = 0.6, which does NOT exceed 0.6 — yet
the obstacle flag is set to true, because the code compares against
0.4. -/
theorem obstacle_threshold_counterexample :
    (update_navigation_data vision_state_obstacle4 true 0 0).obstacle_confidence = 3/5 ∧
      ¬((3 : ℚ)/5 > 3/5) ∧
      (update_navigation_data vision_state_obstacle4 true 0 0).obstacle_detected = true := by
  have hne : ¬([true, true, true, false, false] : List Bool) = [] := by decide
  refine ⟨?_, by norm_num, ?_⟩ <;>
    norm_num [update_navigation_data, vision_state_obstacle4, initialVisionState, pushTrunc, hne]

/-- C5 counterexample: a freshly started lane-direction history holding
a single observation reports confidence 1 (count divided by the current
length 1), not 1/5 as dividing by the fixed capacity N = 5 would give. -/
theorem confidence_divisor_counterexample :
    (update_direction_with_confidence ["LEFT"] "STRAIGHT" 0).2 = 1 ∧ (1 : ℚ) ≠ 1/5 := by
  constructor
  · norm_num [update_direction_with_confidence, mostCommon, dedupFirst]
  · norm_num

/-- C5 (amended): for every nonempty history state the reported
confidence equals the count of the majority value (the value whose
count is maximal over the history) divided by the CURRENT number of
stored observations — which equals the capacity N only once the buffer
is full. -/
theorem confidence_divides_by_current_length (hist : List String)
    (cur : String) (conf : ℚ) (h : hist ≠ []) :
    (update_direction_with_confidence hist cur conf).2
        = (hist.count (mostCommon hist) : ℚ) / (hist.length : ℚ) ∧
      ∀ x ∈ hist, hist.count x ≤ hist.count (mostCommon hist) := by
  refine ⟨?_, fun x hx => count_le_mostCommon hist x hx⟩
  unfold update_direction_with_confidence
  rw [if_neg h]

theorem confidence_divides_by_current_length_witness :
    (update_direction_with_confidence ["LEFT"] "STRAIGHT" 0).2
        = ((["LEFT"].count (mostCommon ["LEFT"]) : ℚ)) / ((["LEFT"].length : ℚ)) ∧
      ∀ x ∈ ["LEFT"], (["LEFT"].count x ≤ ["LEFT"].count (mostCommon ["LEFT"])) :=
  confidence_divides_by_current_length ["LEFT"] "STRAIGHT" 0 (by decide)

/-- One processed cycle of the lane-direction stabilizer: the
history push of `process_navigation_frame` (append + truncate to the
history length 5) followed by `_update_direction_with_confidence`. -/
def laneStep (st : List String × String × ℚ) (d : String) : List String × String × ℚ :=
  (pushTrunc st.1 d 5,
   update_direction_with_confidence (pushTrunc st.1 d 5) st.2.1 st.2.2)

/-- C6: starting from the empty lane history (capacity 5, ratio
threshold 0.6), pushing LEFT, LEFT, LEFT, RIGHT, RIGHT ends with lane
confidence exactly 3/5 = 0.6 and, because the 0.6 test is inclusive
(`>=`), the stable direction LEFT. -/
theorem majority_sequence_yields_left :
    (List.foldl laneStep ([], "STRAIGHT", 0) ["LEFT", "LEFT", "LEFT", "RIGHT", "RIGHT"]).2.1
        = "LEFT" ∧
      (List.foldl laneStep ([], "STRAIGHT", 0) ["LEFT", "LEFT", "LEFT", "RIGHT", "RIGHT"]).2.2
        = 3/5 := by
  have hRL : ¬(("RIGHT" : String) = "LEFT") := by decide
  have hLR : ¬(("LEFT" : String) = "RIGHT") := by decide
  have hne4 : ¬((["LEFT", "LEFT", "LEFT", "RIGHT"] : List String) = []) := by decide
  have hne5 : ¬((["LEFT", "LEFT", "LEFT", "RIGHT", "RIGHT"] : List String) = []) := by decide
  norm_num [laneStep, update_direction_with_confidence, pushTrunc, mostCommon, dedupFirst,
    List.count_cons, List.count_nil, hRL, hLR, hne4, hne5]

/-- C8: on a skipped cycle (the advanced frame-skip counter is not a
multiple of `skip_frames`), `process_navigation_frame` returns the
previously computed `navigation_data` unchanged and mutates nothing but
the skip counter itself. -/
theorem skipped_cycle_preserves_state (s : VisionState) (f : FrameAnalysis)
    (h : (s.frame_skip_counter + 1) % s.skip_frames ≠ 0) :
    process_navigation_frame s f =
      ({ s with frame_skip_counter := s.frame_skip_counter + 1 }, s.navigation_data) := by
  unfold process_navigation_frame
  simp only []
  rw [if_pos h]

/-- Frame input for the skipped-cycle witness. -/
def frame_none : FrameAnalysis :=
  { path_center_x := none, img_center_x := 320, obstacle_distance_px := 0, now := 0 }

theorem skipped_cycle_preserves_state_witness :
    process_navigation_frame initialVisionState frame_none =
      ({ initialVisionState with frame_skip_counter := 1 },
        initialVisionState.navigation_data) :=
  skipped_cycle_preserves_state initialVisionState frame_none (by decide)

end VisionSystem

namespace MotorControl

/-! ## motor_controller.py — safety lockout

`MotorController` drives four motors through GPIO/PWM.  We model the
GPIO/PWM layer as a trace of abstract motor commands: each public
operation returns its Python return value, the successor state, and the
list of motor commands it issued.  Wall-clock bookkeeping
(`last_command_time`) is not modelled; no claim depends on it. -/

/-- Speed constants from `__init__`. -/
def default_speed : ℕ := 75

def max_speed : ℕ := 100

def min_speed : ℕ := 20

def acceleration_step : ℕ := 5

/-- One GPIO-level motor command: `motorN_forward(speed)`,
`motorN_backward(speed)` or `motorN_stop()` (motors numbered 1–4). -/
inductive MotorCmd where
  | fwd (motor : ℕ) (speed : ℕ)
  | bwd (motor : ℕ) (speed : ℕ)
  | halt (motor : ℕ)
deriving DecidableEq

/-- Python `needle in haystack` on strings. -/
def pyIn (needle hay : String) : Bool :=
  decide (needle.toList <:+: hay.toList)

/-- Mutable attributes of `MotorController` touched by the movement and
stop operations.  The four per-motor entries of `motor_state` always
receive identical direction/speed values, modelled once. -/
structure MotorState where
  emergency_stop_active : Bool
  current_speed : ℕ
  smooth_control : Bool
  current_action : String
  target_speed : ℕ
  actual_speed : ℕ
  motors_direction : String
  motors_speed : ℕ
  total_commands : ℕ
  emergency_stops : ℕ
deriving DecidableEq

/-- State after `__init__`. -/
def initialMotorState : MotorState :=
  { emergency_stop_active := false, current_speed := 0, smooth_control := true,
    current_action := "stopped", target_speed := 0, actual_speed := 0,
    motors_direction := "stop", motors_speed := 0, total_commands := 0,
    emergency_stops := 0 }

/-- `_apply_speed_to_all_motors(speed, direction)`. -/
def applySpeedAll (speed : ℕ) (direction : String) : List MotorCmd :=
  if direction = "forward" then
    [MotorCmd.fwd 1 speed, MotorCmd.fwd 2 speed, MotorCmd.fwd 3 speed, MotorCmd.fwd 4 speed]
  else if direction = "backward" then
    [MotorCmd.bwd 1 speed, MotorCmd.bwd 2 speed, MotorCmd.bwd 3 speed, MotorCmd.bwd 4 speed]
  else []

/-- `motor1_stop() .. motor4_stop()`. -/
def stopAllCmds : List MotorCmd :=
  [MotorCmd.halt 1, MotorCmd.halt 2, MotorCmd.halt 3, MotorCmd.halt 4]

/-- The deceleration loop of `_smooth_transition('stop', 0)`: while
`current_speed > 0` subtract the acceleration step (clamped at 0, which
truncated `Nat` subtraction gives directly) and command all motors
forward at the lowered speed.  Returns the commands issued; the loop
always leaves `current_speed = 0`. -/
def smoothStopLoop (cur : ℕ) : List MotorCmd :=
  if h : 0 < cur then
    applySpeedAll (cur - acceleration_step) "forward" ++
      smoothStopLoop (cur - acceleration_step)
  else []
termination_by cur
decreasing_by simp [acceleration_step]; omega

/-- The acceleration/deceleration loop of `_smooth_transition`: while
`abs(current_speed - target_speed) > acceleration_step`, step the speed
toward the target and command all motors in the requested direction.
The loop always ends with `current_speed = target_speed` (assigned
after the loop in the source). -/
def smoothRunLoop (cur target : ℕ) (action : String) : List MotorCmd :=
  if h : acceleration_step < Nat.dist cur target then
    (if action = "forward" then
        applySpeedAll (if cur < target then min target (cur + acceleration_step)
                       else max target (cur - acceleration_step)) "forward"
      else if action = "backward" then
        applySpeedAll (if cur < target then min target (cur + acceleration_step)
                       else max target (cur - acceleration_step)) "backward"
      else []) ++
      smoothRunLoop (if cur < target then min target (cur + acceleration_step)
                     else max target (cur - acceleration_step)) target action
  else []
termination_by Nat.dist cur target
decreasing_by simp only [acceleration_step, Nat.dist] at h ⊢; split <;> omega

/-- `_update_motor_state(action, speed)` (without the wall-clock
timestamp).  The direction keyword is recovered from the action string
by Python substring tests, in source order; the per-motor speed is
zeroed in the `stop` branch. -/
def update_motor_state (s : MotorState) (action : String) (speed : ℕ) : MotorState :=
  { s with
    current_action := action
    target_speed := speed
    actual_speed := s.current_speed
    motors_direction :=
      if pyIn "forward" action then "forward"
      else if pyIn "backward" action then "backward"
      else if pyIn "stop" action then "stop"
      else if pyIn "turn_left" action then "turn_left"
      else if pyIn "turn_right" action then "turn_right"
      else "unknown"
    motors_speed :=
      if ¬pyIn "forward" action ∧ ¬pyIn "backward" action ∧ pyIn "stop" action then 0
      else speed }

/-- `all_motors_stop(immediate=True)` and the immediate branch of
`all_motors_stop`: stop all four motors, zero the speed, refresh the
motor state and count the command. -/
def allMotorsStopImmediate (s : MotorState) : Bool × MotorState × List MotorCmd :=
  let s := update_motor_state { s with current_speed := 0 } "stopped" 0
  (true, { s with total_commands := s.total_commands + 1 }, stopAllCmds)

/-- `_smooth_transition(target_action, target_speed)`: the `stop` case
runs the deceleration loop and then `all_motors_stop(immediate=True)`;
the `forward`/`backward` cases run the ramp loop and finish at the
target speed, returning True without touching `motor_state` (the caller
returns this result directly). -/
def smooth_transition (s : MotorState) (target_action : String) (target_speed : ℕ) :
    Bool × MotorState × List MotorCmd :=
  if target_action = "stop" then
    let r := allMotorsStopImmediate { s with current_speed := 0 }
    (true, r.2.1, smoothStopLoop s.current_speed ++ r.2.2)
  else
    (true, { s with current_speed := target_speed },
      smoothRunLoop s.current_speed target_speed target_action)

/-- `all_motors_stop(immediate)`: the smooth branch delegates to
`_smooth_transition('stop', 0)` (whose nested immediate stop already
refreshed the state once) and then, like the immediate branch, falls
through to `_update_motor_state('stopped', 0)` and the command counter. -/
def all_motors_stop (s : MotorState) (immediate : Bool) : Bool × MotorState × List MotorCmd :=
  if immediate ∨ s.smooth_control = false then
    allMotorsStopImmediate s
  else
    let r := smooth_transition s "stop" 0
    let s1 := update_motor_state r.2.1 "stopped" 0
    (true, { s1 with total_commands := s1.total_commands + 1 }, r.2.2)

/-- `all_motors_forward(speed=None, smooth=None)`: refuses under the
emergency lockout; otherwise either returns the smooth transition
directly or commands all motors and updates the state. -/
def all_motors_forward (s : MotorState) (speed? : Option ℕ) (smooth? : Option Bool) :
    Bool × MotorState × List MotorCmd :=
  if s.emergency_stop_active then (false, s, [])
  else
    let speed := speed?.getD default_speed
    if smooth?.getD s.smooth_control then smooth_transition s "forward" speed
    else
      let s1 := update_motor_state s "forward" speed
      (true, { s1 with total_commands := s1.total_commands + 1 }, applySpeedAll speed "forward")

/-- `all_motors_backward(speed=None, smooth=None)`. -/
def all_motors_backward (s : MotorState) (speed? : Option ℕ) (smooth? : Option Bool) :
    Bool × MotorState × List MotorCmd :=
  if s.emergency_stop_active then (false, s, [])
  else
    let speed := speed?.getD default_speed
    if smooth?.getD s.smooth_control then smooth_transition s "backward" speed
    else
      let s1 := update_motor_state s "backward" speed
      (true, { s1 with total_commands := s1.total_commands + 1 }, applySpeedAll speed "backward")

/-- `turn_left(speed=None, turn_type='normal')`: sharp, pivot and
normal turning modes. -/
def turn_left (s : MotorState) (speed? : Option ℕ) (turn_type : String) :
    Bool × MotorState × List MotorCmd :=
  if s.emergency_stop_active then (false, s, [])
  else
    let speed := speed?.getD default_speed
    let cmds :=
      if turn_type = "sharp" then
        [MotorCmd.bwd 1 speed, MotorCmd.bwd 3 speed, MotorCmd.fwd 2 speed, MotorCmd.fwd 4 speed]
      else if turn_type = "pivot" then
        [MotorCmd.bwd 1 (min (speed + 20) max_speed), MotorCmd.bwd 3 (min (speed + 20) max_speed),
         MotorCmd.fwd 2 (min (speed + 20) max_speed), MotorCmd.fwd 4 (min (speed + 20) max_speed)]
      else
        [MotorCmd.fwd 1 (max (speed - 30) min_speed), MotorCmd.fwd 3 (max (speed - 30) min_speed),
         MotorCmd.fwd 2 speed, MotorCmd.fwd 4 speed]
    let s1 := update_motor_state s ("turn_left_" ++ turn_type) speed
    (true, { s1 with total_commands := s1.total_commands + 1 }, cmds)

/-- `turn_right(speed=None, turn_type='normal')`. -/
def turn_right (s : MotorState) (speed? : Option ℕ) (turn_type : String) :
    Bool × MotorState × List MotorCmd :=
  if s.emergency_stop_active then (false, s, [])
  else
    let speed := speed?.getD default_speed
    let cmds :=
      if turn_type = "sharp" then
        [MotorCmd.bwd 2 speed, MotorCmd.bwd 4 speed, MotorCmd.fwd 1 speed, MotorCmd.fwd 3 speed]
      else if turn_type = "pivot" then
        [MotorCmd.bwd 2 (min (speed + 20) max_speed), MotorCmd.bwd 4 (min (speed + 20) max_speed),
         MotorCmd.fwd 1 (min (speed + 20) max_speed), MotorCmd.fwd 3 (min (speed + 20) max_speed)]
      else
        [MotorCmd.fwd 2 (max (speed - 30) min_speed), MotorCmd.fwd 4 (max (speed - 30) min_speed),
         MotorCmd.fwd 1 speed, MotorCmd.fwd 3 speed]
    let s1 := update_motor_state s ("turn_right_" ++ turn_type) speed
    (true, { s1 with total_commands := s1.total_commands + 1 }, cmds)

/-- `emergency_stop()`: engages the lockout, stops immediately, counts
the emergency stop. -/
def emergency_stop (s : MotorState) : Bool × MotorState × List MotorCmd :=
  let r := all_motors_stop { s with emergency_stop_active := true } true
  (true, { r.2.1 with emergency_stops := r.2.1.emergency_stops + 1 }, r.2.2)

/-- `reset_emergency_stop()`. -/
def reset_emergency_stop (s : MotorState) : Bool × MotorState × List MotorCmd :=
  (true, { s with emergency_stop_active := false }, [])

/-- One public motor-controller call, for reasoning about sequences of
operations. -/
inductive MotorOp where
  | forward (speed? : Option ℕ) (smooth? : Option Bool)
  | backward (speed? : Option ℕ) (smooth? : Option Bool)
  | left (speed? : Option ℕ) (turn_type : String)
  | right (speed? : Option ℕ) (turn_type : String)
  | stopAll (immediate : Bool)
  | estop
  | resetEstop
deriving DecidableEq

def applyOp (s : MotorState) (op : MotorOp) : Bool × MotorState × List MotorCmd :=
  match op with
  | MotorOp.forward sp sm => all_motors_forward s sp sm
  | MotorOp.backward sp sm => all_motors_backward s sp sm
  | MotorOp.left sp tt => turn_left s sp tt
  | MotorOp.right sp tt => turn_right s sp tt
  | MotorOp.stopAll imm => all_motors_stop s imm
  | MotorOp.estop => emergency_stop s
  | MotorOp.resetEstop => reset_emergency_stop s

/-- State after a sequence of public calls. -/
def runOps (s : MotorState) (ops : List MotorOp) : MotorState :=
  ops.foldl (fun st op => (applyOp st op).2.1) s

end MotorControl

namespace MotorControl

/-! ### The emergency lockout claim -/

/-- No stop path touches the lockout flag. -/
theorem all_motors_stop_esa (s : MotorState) (imm : Bool) :
    ((all_motors_stop s imm).2.1).emergency_stop_active = s.emergency_stop_active := by
  unfold all_motors_stop smooth_transition allMotorsStopImmediate update_motor_state
  split <;> simp

/-- `emergency_stop` leaves the lockout engaged. -/
theorem emergency_stop_esa (s : MotorState) :
    ((emergency_stop s).2.1).emergency_stop_active = true := by
  unfold emergency_stop
  simp [all_motors_stop_esa]

/-- Movement operations under the engaged lockout refuse and change
nothing; the other operations except `reset_emergency_stop` keep the
lockout engaged. -/
theorem applyOp_esa (s : MotorState) (op : MotorOp)
    (h : s.emergency_stop_active = true) (hop : op ≠ MotorOp.resetEstop) :
    ((applyOp s op).2.1).emergency_stop_active = true := by
  cases op with
  | forward sp sm => simpa [applyOp, all_motors_forward, h] using h
  | backward sp sm => simpa [applyOp, all_motors_backward, h] using h
  | left sp tt => simpa [applyOp, turn_left, h] using h
  | right sp tt => simpa [applyOp, turn_right, h] using h
  | stopAll imm => simpa [applyOp, all_motors_stop_esa] using h
  | estop => simpa [applyOp] using emergency_stop_esa s
  | resetEstop => exact absurd rfl hop

/-- C9: with the emergency lockout engaged, every movement operation
(`all_motors_forward`, `all_motors_backward`, `turn_left`,
`turn_right`) returns False, issues no motor command and leaves the
state untouched; the lockout survives any sequence of operations that
does not include `reset_emergency_stop`; and `reset_emergency_stop`
disengages it. -/
theorem emergency_lockout (s : MotorState) (h : s.emergency_stop_active = true) :
    (∀ sp sm, all_motors_forward s sp sm = (false, s, [])) ∧
    (∀ sp sm, all_motors_backward s sp sm = (false, s, [])) ∧
    (∀ sp tt, turn_left s sp tt = (false, s, [])) ∧
    (∀ sp tt, turn_right s sp tt = (false, s, [])) ∧
    (∀ ops : List MotorOp, MotorOp.resetEstop ∉ ops →
      (runOps s ops).emergency_stop_active = true) ∧
    ((reset_emergency_stop s).2.1).emergency_stop_active = false := by
  refine ⟨?_, ?_, ?_, ?_, ?_, rfl⟩
  · intro sp sm; simp [all_motors_forward, h]
  · intro sp sm; simp [all_motors_backward, h]
  · intro sp tt; simp [turn_left, h]
  · intro sp tt; simp [turn_right, h]
  · intro ops hno
    induction ops generalizing s with
    | nil => exact h
    | cons op ops ih =>
      have hop : op ≠ MotorOp.resetEstop := fun he => hno (he ▸ List.mem_cons_self op ops)
      have hno2 : MotorOp.resetEstop ∉ ops := fun hm => hno (List.mem_cons_of_mem op hm)
      exact ih _ (applyOp_esa s op h hop) hno2

/-- Controller state with the lockout engaged, as left by
`emergency_stop()` from the initial state. -/
def lockedMotorState : MotorState :=
  { initialMotorState with emergency_stop_active := true }

theorem emergency_lockout_witness :
    all_motors_forward lockedMotorState none none = (false, lockedMotorState, []) ∧
      turn_left lockedMotorState (some 75) "sharp" = (false, lockedMotorState, []) ∧
      (runOps lockedMotorState
          [MotorOp.forward none none, MotorOp.stopAll true,
            MotorOp.backward (some 50) (some false)]).emergency_stop_active = true := by
  have h := emergency_lockout lockedMotorState rfl
  exact ⟨h.1 none none, h.2.2.1 (some 75) "sharp",
    h.2.2.2.2.1 [MotorOp.forward none none, MotorOp.stopAll true,
      MotorOp.backward (some 50) (some false)] (by decide)⟩

end MotorControl
